import Mathlib

/-!
# Verification of the DINO self-distillation training core

Shallow embedding of `src/models/dino.py` (class `DINO`) and
`src/models/DinowTwinsFT.py` (class `DinowTwinsFT`) from the
DeepLearningProject repository, together with proofs about the embedded
operations.

Modelling conventions:
* Parameter tensors are flattened to `List ℚ` (one rational per scalar
  entry); exact rational arithmetic stands in for the float arithmetic of
  the source, since the claims under study are about index bookkeeping,
  update formulas and frame conditions, not rounding.
* The backbone networks produced by the external collaborator `get_net`
  and the external losses (`DinoLoss`, `CrossEntropyLoss`) are abstracted
  as function parameters: the spec lists them as external collaborators.
* Fallible Python operations (sequence indexing, attribute lookup, dict
  subscription, checkpoint loading) are embedded as `Except String`
  computations whose error strings name the Python exception class.
-/

/-- State of a `DINO` module (`src/models/dino.py`): the iteration and epoch
counters initialised to `0` in `DINO.__init__`, the precomputed momentum
schedule (`cosine_scheduler` output, consumed by index), and the four
parameter collections registered on the module, each flattened to a list of
scalars in traversal order. -/
structure DINOState where
  curr_epoch : Nat
  curr_iteration : Nat
  momentum_schedule : List ℚ
  student_backbone_params : List ℚ
  teacher_backbone_params : List ℚ
  student_head_params : List ℚ
  teacher_head_params : List ℚ
deriving DecidableEq, Repr

/-- The in-place EMA update of one teacher parameter in `DINO.training_step`:
`param_k.mul_(m).add_((1 - m) * param_q.detach())`, i.e.
`teacher := teacher * m + (1 - m) * student`. -/
def emaUpdate (m pq pk : ℚ) : ℚ :=
  pk * m + (1 - m) * pq

/-- `DINO.training_step` (src/models/dino.py lines 97-118), restricted to its
state effects.  The body first runs `self.curr_iteration += 1`, then computes
the loss (external `DinoLoss`, no effect on counters or parameters), then in a
no-grad block reads `m = self.momentum_schedule[self.curr_iteration]` — a
fallible sequence access, `IndexError` when the index is out of range — and
finally EMA-updates the teacher backbone and teacher head parameters pairwise
against the student ones (Python `zip`, like `List.zipWith`, truncates to the
shorter list). -/
def trainingStep (s : DINOState) : Except String DINOState :=
  let s1 : DINOState := { s with curr_iteration := s.curr_iteration + 1 }
  match s1.momentum_schedule[s1.curr_iteration]? with
  | none => .error "IndexError: index out of range"
  | some m =>
      .ok { s1 with
        teacher_backbone_params :=
          List.zipWith (fun pq pk => emaUpdate m pq pk)
            s1.student_backbone_params s1.teacher_backbone_params
        teacher_head_params :=
          List.zipWith (fun pq pk => emaUpdate m pq pk)
            s1.student_head_params s1.teacher_head_params }

/-- Iterated `trainingStep`: one call per processed batch, propagating any
`IndexError` exactly as the Python training loop would abort. -/
def runSteps : Nat → DINOState → Except String DINOState
  | 0, s => .ok s
  | n + 1, s =>
    match trainingStep s with
    | .error e => .error e
    | .ok s1 => runSteps n s1

/-- `DINO.on_epoch_end` (src/models/dino.py): `self.curr_epoch += 1`. -/
def onEpochEnd (s : DINOState) : DINOState :=
  { s with curr_epoch := s.curr_epoch + 1 }

/-- The concatenation loop of `DINO.forward`: starting from an empty tensor,
`for x in crops: out = backbone(x); full = torch.cat((full, out))` — the
output rows for each crop, in crop order. -/
def catOutputs (backbone : α → α) (crops : List α) : List α :=
  crops.foldl (fun acc x => acc ++ [backbone x]) []

/-- `DINO.forward` (src/models/dino.py lines 80-95): the student backbone runs
on every crop, the teacher backbone on `crops[:2]`; each head then runs on its
concatenated feature map.  Backbones and heads are external modules,
abstracted as functions. -/
def dinoForward (student_backbone teacher_backbone : α → α)
    (student_head teacher_head : List α → List α)
    (crops : List α) : List α × List α :=
  (student_head (catOutputs student_backbone crops),
   teacher_head (catOutputs teacher_backbone (crops.take 2)))

/-- `DINO.configure_optimizers` hands the optimizer `self.parameters()`: every
parameter registered on the module, the teacher collections included.  (The
parameters of the external `DinoLoss` submodule, if any, are omitted; only the
four network collections matter to the claims below.) -/
def configureOptimizersParams (s : DINOState) : List ℚ :=
  s.student_backbone_params ++ s.teacher_backbone_params ++
    s.student_head_params ++ s.teacher_head_params

/-- `DINO.validation_step`: computes `self._get_loss(batch)` (a pure forward
pass through the external backbones/heads plus the external loss, reading
`curr_epoch`) and logs it; it assigns no attribute, so the module state is
returned unchanged alongside the logged loss. -/
def validationStep (lossFn : List ℚ × List ℚ → Nat → ℚ)
    (student_backbone teacher_backbone : ℚ → ℚ)
    (student_head teacher_head : List ℚ → List ℚ)
    (s : DINOState) (batch : List ℚ) : DINOState × ℚ :=
  (s, lossFn (dinoForward student_backbone teacher_backbone
        student_head teacher_head batch) s.curr_epoch)

/-- `DINO.test_step`: identical state behaviour to `validation_step` (the
Python method returns `None`, but the logged loss is the same expression). -/
def testStep (lossFn : List ℚ × List ℚ → Nat → ℚ)
    (student_backbone teacher_backbone : ℚ → ℚ)
    (student_head teacher_head : List ℚ → List ℚ)
    (s : DINOState) (batch : List ℚ) : DINOState × ℚ :=
  (s, lossFn (dinoForward student_backbone teacher_backbone
        student_head teacher_head batch) s.curr_epoch)

/-- A leaf tensor parameter as the autograd engine sees it: its value, its
accumulated gradient (`0` standing for a fresh/absent `.grad`), and its
`requires_grad` flag. -/
structure Param where
  value : ℚ
  grad : ℚ
  requiresGrad : Bool
deriving DecidableEq, Repr

/-- Modelled from the spec: the external tensor backend's backward pass (the
repository never implements autograd itself).  Per the spec's frame
properties, `loss.backward()` accumulates a gradient increment into the
`.grad` field of each leaf parameter whose `requires_grad` flag is set and
modifies nothing else — in particular no parameter value. -/
def backwardAccum (grads : Nat → ℚ) (ps : List Param) : List Param :=
  ps.mapIdx fun i p =>
    if p.requiresGrad then { p with grad := p.grad + grads i } else p

/-- The forward + loss + backward fragment of `DINO.training_step`, with the
EMA block removed: the forward pass and the external loss write no parameter,
and backward only accumulates gradients (`backwardAccum`) into each of the
four parameter collections. -/
def dinoForwardLossBackward (gsb gtb gsh gth : Nat → ℚ)
    (sb tb sh th : List Param) :
    List Param × List Param × List Param × List Param :=
  (backwardAccum gsb sb, backwardAccum gtb tb,
   backwardAccum gsh sh, backwardAccum gth th)

/-- `module.requires_grad_(flag)`: sets the `requires_grad` flag of every
parameter of the module. -/
def requiresGradSet (flag : Bool) (ps : List Param) : List Param :=
  ps.map fun p => { p with requiresGrad := flag }

/-- A fresh `nn.Linear` layer's parameters: given initial values, each
parameter starts with no accumulated gradient and `requires_grad = True`
(the torch default for newly constructed modules). -/
def freshParams (vals : List ℚ) : List Param :=
  vals.map fun v => { value := v, grad := 0, requiresGrad := true }

/-- State of a `DinowTwinsFT` module (`src/models/DinowTwinsFT.py`): the
parameters of the pretrained `DinowTwins` sub-network and of the attached
linear classifier.  Modelled from the spec: `models/DinowTwins.py` is not
among the provided sources, so the pretrained sub-network is represented
abstractly by its parameter collection (the spec's "pretrained student
pipeline"). -/
structure DinowTwinsFTState where
  pretrained_dinow_twin : List Param
  linear : List Param
deriving DecidableEq, Repr

/-- The freezing tail of `DinowTwinsFT.__init__` (src/models/DinowTwinsFT.py
lines 34-40): after constructing (and optionally checkpoint-loading) the
pretrained sub-network, run `self.pretrained_dinow_twin.requires_grad_(False)`
and then create the trainable classifier `self.linear = nn.Linear(...,
num_cat)`.  No other method of the class assigns to either collection or to
any `requires_grad` flag. -/
def dinowTwinsFTInit (pretrained : List Param) (linearVals : List ℚ) :
    DinowTwinsFTState :=
  { pretrained_dinow_twin := requiresGradSet false pretrained
    linear := freshParams linearVals }

/-- A full forward/backward pass through `DinowTwinsFT` (forward through the
frozen pretrained backbone and head, the classifier and the cross-entropy
loss, then `loss.backward()`): values are untouched and gradients accumulate
per `backwardAccum` on each parameter collection. -/
def ftForwardBackward (gsPre gsLin : Nat → ℚ) (s : DinowTwinsFTState) :
    DinowTwinsFTState :=
  { pretrained_dinow_twin := backwardAccum gsPre s.pretrained_dinow_twin
    linear := backwardAccum gsLin s.linear }

/-- One layer of the projection head as built in `DINO.__init__`. -/
inductive HeadLayer
  | linear (inFeatures outFeatures : Nat) (bias : Bool)
  | gelu
deriving DecidableEq, Repr

/-- The projection-head construction loop of `DINO.__init__`
(src/models/dino.py lines 55-75), verbatim: for `i in range(proj_layers)`,
the first branch fires on `i == 0` with `nn.Linear(head_in_features,
proj_channels, bias=False)`, the second ("Last Layer") branch on
`i == proj_channels - 1` with `nn.Linear(proj_channels, out_channels,
bias=False)`, the final branch otherwise with `nn.Linear(proj_channels,
proj_channels, bias=False)`; a `nn.GELU()` follows whenever `i < 2`. -/
def buildProjLayers (head_in_features proj_channels out_channels
    proj_layers : Nat) : List HeadLayer :=
  (List.range proj_layers).flatMap fun i =>
    (if i = 0 then
      [HeadLayer.linear head_in_features proj_channels false]
    else if i = proj_channels - 1 then
      [HeadLayer.linear proj_channels out_channels false]
    else
      [HeadLayer.linear proj_channels proj_channels false]) ++
    (if i < 2 then [HeadLayer.gelu] else [])

/-- In `DINO.__init__` the first-layer width passed to the loop is
`self.head_in_features`, which is assigned `0` at line 36 and never
reassigned (the separately computed `self.in_features` is never used by the
loop). -/
def dinoHeadInFeatures : Nat := 0

/-- The projection head `DINO.__init__` actually builds for a given
`network_param`: the loop above with `head_in_features = 0`. -/
def dinoProjHead (proj_channels out_channels proj_layers : Nat) :
    List HeadLayer :=
  buildProjLayers dinoHeadInFeatures proj_channels out_channels proj_layers

/-- A serialized parameter mapping: parameter name to tensor shape (only
shapes matter to the load-time check). -/
abbrev StateDict := List (String × List Nat)

/-- Python dict subscription `d[k]`, raising `KeyError` when absent: used for
the `["state_dict"]` access on the object returned by `torch.load`. -/
def dictGet (d : List (String × StateDict)) (k : String) :
    Except String StateDict :=
  match d.lookup k with
  | some v => .ok v
  | none => .error ("KeyError: " ++ k)

/-- Modelled from the spec: `load_state_dict` of the external tensor library,
as the spec's error-handling contract describes it — copying a checkpoint
mapping into a freshly constructed network fails with a fatal shape-mismatch
error as soon as any checkpoint entry's shape differs from the model
parameter of the same name. -/
def loadStateDict (model ckpt : StateDict) : Except String Unit :=
  if model.any (fun entry =>
      match ckpt.lookup entry.1 with
      | some shp => decide (shp ≠ entry.2)
      | none => false) then
    .error "RuntimeError: size mismatch"
  else
    .ok ()

/-- The checkpoint-loading fragment of `DinowTwinsFT.__init__`
(src/models/DinowTwinsFT.py lines 35-36): when `weight_checkpoint` is given,
run `self.pretrained_dinow_twin.load_state_dict(
torch.load(network_param.weight_checkpoint)["state_dict"])` — subscript the
loaded file under the `"state_dict"` key, feed the result to `loadStateDict`,
and let any error propagate (there is no `try`/`except` around the call, so
construction aborts). -/
def ftLoadCheckpoint (weight_checkpoint : Option (List (String × StateDict)))
    (pretrainedModel : StateDict) : Except String Unit :=
  match weight_checkpoint with
  | none => .ok ()
  | some ckptFile => do
      let sd ← dictGet ckptFile "state_dict"
      loadStateDict pretrainedModel sd

/-- One Python attribute operation on `self`. -/
inductive PyAttrOp
  | assign (name : String)
  | read (name : String)
deriving DecidableEq, Repr

/-- Runs a sequence of attribute operations against the set of attributes
currently present on the object: an assignment adds the attribute, a read of
an attribute that was never assigned raises `AttributeError` (Python's
behaviour for a plain object attribute access). -/
def runAttrOps : List PyAttrOp → List String → Except String (List String)
  | [], attrs => .ok attrs
  | PyAttrOp.assign n :: rest, attrs => runAttrOps rest (attrs ++ [n])
  | PyAttrOp.read n :: rest, attrs =>
      if n ∈ attrs then runAttrOps rest attrs
      else .error ("AttributeError: " ++ n)

/-- The `self.<attr>` operations of `DINO.__init__` (src/models/dino.py lines
17-77) in source order.  Assignments: `n_global_crops`, `curr_epoch`,
`curr_iteration`, `optim_param`, `momentum_schedule`, `loss`,
`head_in_features`, `student_backbone`, `teacher_backbone`; then line 45 reads
`self.encoder` (to take its last child's `in_features`) and assigns
`in_features`, line 46 reads `self.encoder` again for the classifier child's
name, line 47 reads the two backbones to replace that child, and the head
block assigns `proj_channels`, `out_channels`, `proj_layers` (reading them and
`head_in_features` in the loop) and finally `student_head`, `teacher_head`.
`self.encoder` is assigned nowhere in the class (nor provided by the
`LightningModule` base class). -/
def dinoInitAttrOps : List PyAttrOp :=
  [ .assign "n_global_crops"
  , .assign "curr_epoch"
  , .assign "curr_iteration"
  , .assign "optim_param"
  , .read "optim_param"
  , .assign "momentum_schedule"
  , .assign "loss"
  , .assign "head_in_features"
  , .assign "student_backbone"
  , .assign "teacher_backbone"
  , .read "encoder"
  , .assign "in_features"
  , .read "encoder"
  , .read "student_backbone"
  , .read "teacher_backbone"
  , .assign "proj_channels"
  , .assign "out_channels"
  , .assign "proj_layers"
  , .read "head_in_features"
  , .read "proj_channels"
  , .read "out_channels"
  , .read "proj_layers"
  , .assign "student_head"
  , .assign "teacher_head" ]

/-- Every attribute assigned on `self` anywhere in the source of class `DINO`
(src/models/dino.py): the `__init__` assignments plus the counter updates in
`training_step` and `on_epoch_end` (which reassign `curr_iteration` and
`curr_epoch`).  Neither `encoder` nor `dino_loss` appears. -/
def dinoAssignedAttrs : List String :=
  [ "n_global_crops", "curr_epoch", "curr_iteration", "optim_param"
  , "momentum_schedule", "loss", "head_in_features", "student_backbone"
  , "teacher_backbone", "in_features", "proj_channels", "out_channels"
  , "proj_layers", "student_head", "teacher_head" ]

/-- Python attribute lookup on an object whose assigned attributes are
`attrs`. -/
def pyGetattr (attrs : List String) (n : String) : Except String Unit :=
  if n ∈ attrs then .ok () else .error ("AttributeError: " ++ n)

/-- The attribute resolution performed by `DINO._get_loss` when it evaluates
`self.dino_loss(student_out, teacher_out, self.curr_epoch)`: look up
`dino_loss` among the attributes the class ever assigns. -/
def dinoGetLossAttrLookup : Except String Unit :=
  pyGetattr dinoAssignedAttrs "dino_loss"

/-! ## Helper lemmas -/

theorem catOutputs_eq_map (f : α → α) (crops : List α) :
    catOutputs f crops = crops.map f := by
  suffices h : ∀ acc : List α,
      crops.foldl (fun acc x => acc ++ [f x]) acc = acc ++ crops.map f by
    simpa [catOutputs] using h []
  induction crops with
  | nil => intro acc; simp
  | cons c cs ih => intro acc; simp [ih]

theorem trainingStep_eq_ok_iff (s s' : DINOState) :
    trainingStep s = .ok s' ↔
      ∃ m, s.momentum_schedule[s.curr_iteration + 1]? = some m ∧
        s' = { s with
          curr_iteration := s.curr_iteration + 1
          teacher_backbone_params :=
            List.zipWith (fun pq pk => emaUpdate m pq pk)
              s.student_backbone_params s.teacher_backbone_params
          teacher_head_params :=
            List.zipWith (fun pq pk => emaUpdate m pq pk)
              s.student_head_params s.teacher_head_params } := by
  unfold trainingStep
  cases hm : s.momentum_schedule[s.curr_iteration + 1]? with
  | none => simp [hm]
  | some m =>
    simp only [hm]
    constructor
    · intro h
      exact ⟨m, rfl, by injection h with h; exact h.symm⟩
    · rintro ⟨m', hm', rfl⟩
      injection hm' with hm'
      subst hm'
      rfl

theorem trainingStep_curr_iteration (s s' : DINOState)
    (h : trainingStep s = .ok s') :
    s'.curr_iteration = s.curr_iteration + 1 := by
  rcases (trainingStep_eq_ok_iff s s').1 h with ⟨m, _, rfl⟩
  rfl

theorem trainingStep_index_in_range (s s' : DINOState)
    (h : trainingStep s = .ok s') :
    s.curr_iteration + 1 < s.momentum_schedule.length := by
  rcases (trainingStep_eq_ok_iff s s').1 h with ⟨m, hm, _⟩
  by_contra hlt
  rw [List.getElem?_eq_none (by omega)] at hm
  exact Option.noConfusion hm

theorem trainingStep_momentum_schedule (s s' : DINOState)
    (h : trainingStep s = .ok s') :
    s'.momentum_schedule = s.momentum_schedule := by
  rcases (trainingStep_eq_ok_iff s s').1 h with ⟨m, _, rfl⟩
  rfl

theorem runSteps_curr_iteration (n : Nat) :
    ∀ s sN : DINOState, runSteps n s = .ok sN →
      sN.curr_iteration = s.curr_iteration + n := by
  induction n with
  | zero =>
    intro s sN h
    simp only [runSteps] at h
    injection h with h
    simp [h]
  | succ n ih =>
    intro s sN h
    unfold runSteps at h
    cases ht : trainingStep s with
    | error e => rw [ht] at h; exact Except.noConfusion h
    | ok s1 =>
      rw [ht] at h
      have h1 := ih s1 sN h
      have h2 := trainingStep_curr_iteration s s1 ht
      omega

/-! ## Claim theorems -/

/-- C3: for every crop sequence with at least two crops, `DINO.forward`
returns a student output built from every crop in the sequence (in order) and
a teacher output built from exactly the first two crops; with identity
backbones and identity heads the outputs are the raw inputs, the student side
with one entry per crop and the teacher side with exactly 2 entries. -/
theorem dino_forward_student_all_crops_teacher_first_two
    (student_backbone teacher_backbone : ℚ → ℚ)
    (student_head teacher_head : List ℚ → List ℚ)
    (crops : List ℚ) (h : 2 ≤ crops.length) :
    dinoForward student_backbone teacher_backbone student_head teacher_head
        crops =
      (student_head (crops.map student_backbone),
       teacher_head ((crops.take 2).map teacher_backbone)) ∧
    (crops.take 2).length = 2 ∧
    dinoForward id id id id crops = (crops, crops.take 2) := by
  refine ⟨?_, ?_, ?_⟩
  · simp [dinoForward, catOutputs_eq_map]
  · simp only [List.length_take]
    omega
  · simp [dinoForward, catOutputs_eq_map]

/-- Witness for C3: the spec scenario with 2 global + 2 local crops, identity
backbone and identity head — 4 student entries, 2 teacher entries, both equal
to the raw inputs. -/
theorem dino_forward_student_all_crops_teacher_first_two_witness :
    2 ≤ ([10, 20, 30, 40] : List ℚ).length ∧
    dinoForward id id id id ([10, 20, 30, 40] : List ℚ) =
      ([10, 20, 30, 40], [10, 20]) ∧
    ([10, 20, 30, 40] : List ℚ).length = 4 ∧
    (([10, 20, 30, 40] : List ℚ).take 2).length = 2 := by
  have h := dino_forward_student_all_crops_teacher_first_two
    id id id id ([10, 20, 30, 40] : List ℚ) (by norm_num)
  exact ⟨by norm_num, by simpa using h.2.2, by norm_num, h.2.1⟩

/-- The spec scenario state for the first EMA update: fresh run
(`curr_iteration = 0`), momentum schedule `[0.9, 0.99]`, one student backbone
parameter `2.0`, one teacher backbone parameter `0.0`. -/
def c1InitState : DINOState where
  curr_epoch := 0
  curr_iteration := 0
  momentum_schedule := [9/10, 99/100]
  student_backbone_params := [2]
  teacher_backbone_params := [0]
  student_head_params := []
  teacher_head_params := []

/-- The state `DINO.training_step` actually produces from `c1InitState`:
`curr_iteration` becomes `1`, so `m = momentum_schedule[1] = 0.99` and the
teacher parameter becomes `0 * 0.99 + 0.01 * 2 = 0.02`. -/
def c1StepState : DINOState where
  curr_epoch := 0
  curr_iteration := 1
  momentum_schedule := [9/10, 99/100]
  student_backbone_params := [2]
  teacher_backbone_params := [1/50]
  student_head_params := []
  teacher_head_params := []

/-- Counterexample to C1 as stated: on the spec's own scenario the first
training step leaves the teacher parameter at `0.02`, not
`0.9 * 0.0 + 0.1 * 2.0 = 0.2` — the schedule is read at index 1, because the
counter is incremented before the read. -/
theorem trainingStep_first_step_reads_index_one :
    trainingStep c1InitState = .ok c1StepState ∧
    c1StepState.teacher_backbone_params = [1/50] ∧
    ([1/50] : List ℚ) ≠ [9/10 * 0 + (1 - 9/10) * 2] := by
  refine ⟨?_, rfl, by norm_num⟩
  rw [trainingStep_eq_ok_iff]
  refine ⟨99/100, by norm_num [c1InitState], ?_⟩
  simp only [c1InitState, c1StepState, emaUpdate, DINOState.mk.injEq]
  norm_num

/-- C1 (amended): the EMA update in `DINO.training_step` computes
`teacher = m * teacher + (1 - m) * student` for every matched parameter pair
across backbone and head, but `m` is read from the momentum schedule at the
post-increment iteration index `curr_iteration + 1`; on the spec's scenario
(schedule `[0.9, 0.99]`, student `2.0`, teacher `0.0`, fresh run) the first
step therefore uses `m = 0.99` and yields `0.02`, not `0.2`. -/
theorem trainingStep_ema_formula (s s' : DINOState) (m : ℚ)
    (hm : s.momentum_schedule[s.curr_iteration + 1]? = some m)
    (hs : trainingStep s = .ok s') :
    s'.teacher_backbone_params =
      List.zipWith (fun pq pk => m * pk + (1 - m) * pq)
        s.student_backbone_params s.teacher_backbone_params ∧
    s'.teacher_head_params =
      List.zipWith (fun pq pk => m * pk + (1 - m) * pq)
        s.student_head_params s.teacher_head_params := by
  rcases (trainingStep_eq_ok_iff s s').1 hs with ⟨m', hm', rfl⟩
  rw [hm] at hm'
  injection hm' with hm'
  subst hm'
  constructor <;>
    · show List.zipWith _ _ _ = _
      simp only [emaUpdate]
      congr 1
      funext pq pk
      ring

/-- Witness for C1 (amended) at the spec scenario. -/
theorem trainingStep_ema_formula_witness :
    c1InitState.momentum_schedule[c1InitState.curr_iteration + 1]? =
      some (99/100) ∧
    trainingStep c1InitState = .ok c1StepState ∧
    c1StepState.teacher_backbone_params =
      List.zipWith (fun pq pk => (99/100 : ℚ) * pk + (1 - 99/100) * pq)
        c1InitState.student_backbone_params
        c1InitState.teacher_backbone_params := by
  have h1 : c1InitState.momentum_schedule[c1InitState.curr_iteration + 1]? =
      some (99/100) := by norm_num [c1InitState]
  have h2 : trainingStep c1InitState = .ok c1StepState := by
    rw [trainingStep_eq_ok_iff]
    refine ⟨99/100, h1, ?_⟩
    simp only [c1InitState, c1StepState, emaUpdate, DINOState.mk.injEq]
    norm_num
  exact ⟨h1, h2,
    (trainingStep_ema_formula c1InitState c1StepState (99/100) h1 h2).1⟩

/-- C5: each call to `DINO.training_step` increments the global iteration
counter by exactly 1, and the momentum-schedule read of that step happens at
the already-incremented index (`curr_iteration + 1`, which a successful step
shows to be in range) while the schedule itself is left unchanged; starting
from a fresh counter `0`, an epoch of `N` processed batches leaves the counter
at `N`; and `DINO.on_epoch_end` increments `curr_epoch` by exactly 1. -/
theorem dino_counter_bookkeeping :
    (∀ s s' : DINOState, trainingStep s = .ok s' →
        s'.curr_iteration = s.curr_iteration + 1 ∧
        s.curr_iteration + 1 < s.momentum_schedule.length ∧
        s'.momentum_schedule = s.momentum_schedule) ∧
    (∀ (n : Nat) (s sN : DINOState), s.curr_iteration = 0 →
        runSteps n s = .ok sN → sN.curr_iteration = n) ∧
    (∀ s : DINOState, (onEpochEnd s).curr_epoch = s.curr_epoch + 1) := by
  refine ⟨fun s s' h => ⟨trainingStep_curr_iteration s s' h,
      trainingStep_index_in_range s s' h,
      trainingStep_momentum_schedule s s' h⟩, fun n s sN h0 h => ?_, fun s => rfl⟩
  have := runSteps_curr_iteration n s sN h
  omega

/-- A fresh three-iteration state used to witness the counter bookkeeping. -/
def c5State : DINOState where
  curr_epoch := 5
  curr_iteration := 0
  momentum_schedule := [9/10, 19/20, 99/100]
  student_backbone_params := []
  teacher_backbone_params := []
  student_head_params := []
  teacher_head_params := []

/-- The state after two training steps from `c5State`. -/
def c5State2 : DINOState where
  curr_epoch := 5
  curr_iteration := 2
  momentum_schedule := [9/10, 19/20, 99/100]
  student_backbone_params := []
  teacher_backbone_params := []
  student_head_params := []
  teacher_head_params := []

/-- Witness for C5: an epoch of two processed batches from a fresh counter
ends with the counter at 2, and one epoch-end event moves the epoch counter
from 5 to 6. -/
theorem dino_counter_bookkeeping_witness :
    c5State.curr_iteration = 0 ∧
    runSteps 2 c5State = .ok c5State2 ∧
    c5State2.curr_iteration = 2 ∧
    (onEpochEnd c5State).curr_epoch = c5State.curr_epoch + 1 := by
  have h2 : runSteps 2 c5State = .ok c5State2 := by
    simp [runSteps, trainingStep, c5State, c5State2]
  exact ⟨rfl, h2,
    dino_counter_bookkeeping.2.1 2 c5State c5State2 rfl h2,
    dino_counter_bookkeeping.2.2 c5State⟩

/-- C6: whenever the (post-increment) iteration counter used to index the
momentum schedule is at least the schedule's length, `DINO.training_step`
aborts with the fatal index error of the unguarded sequence access — there is
no clamping and no bounds check. -/
theorem trainingStep_unguarded_index_error (s : DINOState)
    (h : s.momentum_schedule.length ≤ s.curr_iteration + 1) :
    trainingStep s = .error "IndexError: index out of range" := by
  have hnone : s.momentum_schedule[s.curr_iteration + 1]? = none :=
    List.getElem?_eq_none h
  simp [trainingStep, hnone]

/-- Witness for C6: a one-entry schedule already overflows on the very first
step, since that step reads index 1. -/
theorem trainingStep_unguarded_index_error_witness :
    (DINOState.mk 0 0 [9/10] [] [] [] []).momentum_schedule.length ≤
      (DINOState.mk 0 0 [9/10] [] [] [] []).curr_iteration + 1 ∧
    trainingStep (DINOState.mk 0 0 [9/10] [] [] [] []) =
      .error "IndexError: index out of range" :=
  ⟨by norm_num,
   trainingStep_unguarded_index_error (DINOState.mk 0 0 [9/10] [] [] [] [])
     (by norm_num)⟩

/-- C10: `DINO.validation_step` and `DINO.test_step` only compute and log the
loss; the module state — iteration counter, epoch counter, momentum schedule
and all four parameter collections — is returned unchanged, so no iteration
bookkeeping and no EMA update happens outside `training_step`. -/
theorem validation_and_test_steps_leave_state_unchanged
    (lossFn : List ℚ × List ℚ → Nat → ℚ)
    (student_backbone teacher_backbone : ℚ → ℚ)
    (student_head teacher_head : List ℚ → List ℚ)
    (s : DINOState) (batch : List ℚ) :
    (validationStep lossFn student_backbone teacher_backbone student_head
        teacher_head s batch).1 = s ∧
    (testStep lossFn student_backbone teacher_backbone student_head
        teacher_head s batch).1 = s ∧
    (validationStep lossFn student_backbone teacher_backbone student_head
        teacher_head s batch).1.curr_iteration = s.curr_iteration ∧
    (validationStep lossFn student_backbone teacher_backbone student_head
        teacher_head s batch).1.curr_epoch = s.curr_epoch ∧
    (validationStep lossFn student_backbone teacher_backbone student_head
        teacher_head s batch).1.momentum_schedule = s.momentum_schedule ∧
    (validationStep lossFn student_backbone teacher_backbone student_head
        teacher_head s batch).1.teacher_backbone_params =
      s.teacher_backbone_params ∧
    (validationStep lossFn student_backbone teacher_backbone student_head
        teacher_head s batch).1.teacher_head_params = s.teacher_head_params ∧
    (validationStep lossFn student_backbone teacher_backbone student_head
        teacher_head s batch).1.student_backbone_params =
      s.student_backbone_params ∧
    (validationStep lossFn student_backbone teacher_backbone student_head
        teacher_head s batch).1.student_head_params = s.student_head_params :=
  ⟨rfl, rfl, rfl, rfl, rfl, rfl, rfl, rfl, rfl⟩

theorem backwardAccum_cons (grads : Nat → ℚ) (p : Param) (ps : List Param) :
    backwardAccum grads (p :: ps) =
      (if p.requiresGrad then { p with grad := p.grad + grads 0 } else p) ::
        backwardAccum (fun i => grads (i + 1)) ps := by
  simp [backwardAccum, List.mapIdx_cons]

theorem backwardAccum_map_value (grads : Nat → ℚ) (ps : List Param) :
    (backwardAccum grads ps).map Param.value = ps.map Param.value := by
  induction ps generalizing grads with
  | nil => rfl
  | cons p ps ih =>
    rw [backwardAccum_cons]
    by_cases hp : p.requiresGrad <;> simp [hp, ih]

theorem backwardAccum_frozen (grads : Nat → ℚ) (ps : List Param)
    (h : ∀ p ∈ ps, p.requiresGrad = false) :
    backwardAccum grads ps = ps := by
  induction ps generalizing grads with
  | nil => rfl
  | cons p ps ih =>
    rw [backwardAccum_cons]
    have hp : p.requiresGrad = false := h p (List.mem_cons_self p ps)
    simp only [hp, Bool.false_eq_true, if_false]
    rw [ih (fun i => grads (i + 1))
      (fun q hq => h q (List.mem_cons_of_mem p hq))]

/-- A DINO module state whose parameter values are pairwise distinct, used to
exhibit the teacher parameters inside the optimizer's parameter list. -/
def c2State : DINOState where
  curr_epoch := 0
  curr_iteration := 0
  momentum_schedule := []
  student_backbone_params := [1]
  teacher_backbone_params := [2]
  student_head_params := [3]
  teacher_head_params := [4]

/-- Counterexample to C2 as stated: `DINO.configure_optimizers` hands the
optimizer `self.parameters()`, and that set does contain the teacher backbone
and teacher head parameters — here the values 2 and 4, which occur in no
student collection. -/
theorem configure_optimizers_contains_teacher_params :
    c2State.teacher_backbone_params = [2] ∧
    c2State.teacher_head_params = [4] ∧
    (2 : ℚ) ∈ configureOptimizersParams c2State ∧
    (4 : ℚ) ∈ configureOptimizersParams c2State ∧
    (2 : ℚ) ∉ c2State.student_backbone_params ++ c2State.student_head_params ∧
    (4 : ℚ) ∉ c2State.student_backbone_params ++ c2State.student_head_params := by
  refine ⟨rfl, rfl, ?_, ?_, ?_, ?_⟩ <;>
    norm_num [configureOptimizersParams, c2State]

/-- C2 (amended): the parameter set `DINO.configure_optimizers` hands the
optimizer is all of `self.parameters()` and therefore includes every teacher
backbone and teacher head parameter; nevertheless, running only the
forward + loss + backward path of a training step without the EMA block
leaves every teacher parameter value bit-identical, since backward only
accumulates gradients. -/
theorem optimizer_gets_teacher_params_but_backward_preserves_values
    (s : DINOState) :
    (∀ p ∈ s.teacher_backbone_params, p ∈ configureOptimizersParams s) ∧
    (∀ p ∈ s.teacher_head_params, p ∈ configureOptimizersParams s) ∧
    (∀ (gsb gtb gsh gth : Nat → ℚ) (sb tb sh th : List Param),
      (dinoForwardLossBackward gsb gtb gsh gth sb tb sh th).2.1.map
          Param.value = tb.map Param.value ∧
      (dinoForwardLossBackward gsb gtb gsh gth sb tb sh th).2.2.2.map
          Param.value = th.map Param.value) := by
  refine ⟨fun p hp => ?_, fun p hp => ?_,
    fun gsb gtb gsh gth sb tb sh th =>
      ⟨backwardAccum_map_value gtb tb, backwardAccum_map_value gth th⟩⟩
  · simp [configureOptimizersParams, hp]
  · simp [configureOptimizersParams, hp]

/-- Witness for C2 (amended): the teacher parameter values of `c2State` are in
the optimizer's parameter list. -/
theorem optimizer_gets_teacher_params_witness :
    (2 : ℚ) ∈ configureOptimizersParams c2State ∧
    (4 : ℚ) ∈ configureOptimizersParams c2State :=
  ⟨(optimizer_gets_teacher_params_but_backward_preserves_values c2State).1 2
      (by norm_num [c2State]),
   (optimizer_gets_teacher_params_but_backward_preserves_values c2State).2.1 4
      (by norm_num [c2State])⟩

/-- C7: after `DinowTwinsFT.__init__`, every parameter of the pretrained
sub-network has gradient computation disabled; a full forward/backward pass
leaves the pretrained collection entirely unchanged (no gradient accumulates,
values and flags are bit-identical, and in particular nothing re-enables the
flag), while the attached linear classifier is the trainable part
(`requires_grad = true` on every classifier parameter). -/
theorem dinowTwinsFT_pretrained_frozen (pretrained : List Param)
    (linearVals : List ℚ) (gsPre gsLin : Nat → ℚ) :
    (∀ p ∈ (dinowTwinsFTInit pretrained linearVals).pretrained_dinow_twin,
        p.requiresGrad = false) ∧
    (ftForwardBackward gsPre gsLin
        (dinowTwinsFTInit pretrained linearVals)).pretrained_dinow_twin =
      (dinowTwinsFTInit pretrained linearVals).pretrained_dinow_twin ∧
    (∀ p ∈ (ftForwardBackward gsPre gsLin
        (dinowTwinsFTInit pretrained linearVals)).pretrained_dinow_twin,
        p.requiresGrad = false ∧ p.grad ∈ pretrained.map Param.grad) ∧
    (∀ p ∈ (dinowTwinsFTInit pretrained linearVals).linear,
        p.requiresGrad = true) := by
  have hfrozen :
      ∀ p ∈ (dinowTwinsFTInit pretrained linearVals).pretrained_dinow_twin,
        p.requiresGrad = false := by
    intro p hp
    simp only [dinowTwinsFTInit, requiresGradSet, List.mem_map] at hp
    rcases hp with ⟨q, _, rfl⟩
    rfl
  have hsame : (ftForwardBackward gsPre gsLin
      (dinowTwinsFTInit pretrained linearVals)).pretrained_dinow_twin =
      (dinowTwinsFTInit pretrained linearVals).pretrained_dinow_twin :=
    backwardAccum_frozen gsPre _ hfrozen
  refine ⟨hfrozen, hsame, fun p hp => ?_, fun p hp => ?_⟩
  · rw [hsame] at hp
    refine ⟨hfrozen p hp, ?_⟩
    simp only [dinowTwinsFTInit, requiresGradSet, List.mem_map] at hp
    rcases hp with ⟨q, hq, rfl⟩
    exact List.mem_map.2 ⟨q, hq, rfl⟩
  · simp only [dinowTwinsFTInit, freshParams, List.mem_map] at hp
    rcases hp with ⟨v, _, rfl⟩
    rfl

/-- Witness for C7 at a concrete frozen parameter and classifier value. -/
theorem dinowTwinsFT_pretrained_frozen_witness :
    (ftForwardBackward (fun _ => 1) (fun _ => 1)
        (dinowTwinsFTInit [{ value := 5, grad := 0, requiresGrad := true }]
          [7])).pretrained_dinow_twin =
      (dinowTwinsFTInit [{ value := 5, grad := 0, requiresGrad := true }]
          [7]).pretrained_dinow_twin :=
  (dinowTwinsFT_pretrained_frozen
    [{ value := 5, grad := 0, requiresGrad := true }] [7]
    (fun _ => 1) (fun _ => 1)).2.1

/-- C8: when a weight checkpoint is given, `DinowTwinsFT.__init__` reads the
parameter mapping under the checkpoint's top-level `"state_dict"` key, and a
shape mismatch between any checkpoint entry and the same-named parameter of
the freshly constructed pretrained sub-network makes construction fail
immediately with the shape-mismatch error — nothing catches it. -/
theorem ft_checkpoint_shape_mismatch_fatal
    (ckptFile : List (String × StateDict)) (model sd : StateDict)
    (name : String) (shpModel shpCkpt : List Nat)
    (hget : ckptFile.lookup "state_dict" = some sd)
    (hmem : (name, shpModel) ∈ model)
    (hck : sd.lookup name = some shpCkpt)
    (hne : shpModel ≠ shpCkpt) :
    ftLoadCheckpoint (some ckptFile) model =
      .error "RuntimeError: size mismatch" := by
  have hany : model.any (fun entry =>
      match sd.lookup entry.1 with
      | some shp => decide (shp ≠ entry.2)
      | none => false) = true := by
    refine List.any_eq_true.2 ⟨(name, shpModel), hmem, ?_⟩
    simp only [hck]
    exact decide_eq_true (fun h => hne h.symm)
  have hload : loadStateDict model sd = .error "RuntimeError: size mismatch" := by
    unfold loadStateDict
    rw [hany]
    simp
  have hdict : dictGet ckptFile "state_dict" = .ok sd := by
    unfold dictGet
    rw [hget]
  show (do
      let sd ← dictGet ckptFile "state_dict"
      loadStateDict model sd) = Except.error "RuntimeError: size mismatch"
  rw [hdict]
  simpa using hload

/-- Witness for C8: a one-parameter network with shape `[2]` against a
checkpoint carrying shape `[3]` under the `"state_dict"` key. -/
theorem ft_checkpoint_shape_mismatch_fatal_witness :
    ([("state_dict", [("w", [3])])] :
        List (String × StateDict)).lookup "state_dict" = some [("w", [3])] ∧
    ("w", [2]) ∈ ([("w", [2])] : StateDict) ∧
    ([("w", [3])] : StateDict).lookup "w" = some [3] ∧
    ([2] : List Nat) ≠ [3] ∧
    ftLoadCheckpoint (some [("state_dict", [("w", [3])])]) [("w", [2])] =
      .error "RuntimeError: size mismatch" :=
  ⟨rfl, List.mem_singleton.2 rfl, rfl, by decide,
   ft_checkpoint_shape_mismatch_fatal [("state_dict", [("w", [3])])]
     [("w", [2])] [("w", [3])] "w" [2] [3] rfl
     (List.mem_singleton.2 rfl) rfl (by decide)⟩

/-- C9: replaying the attribute operations of `DINO.__init__` aborts with
`AttributeError` on `encoder` at the line that inspects the classification
sub-layer; `encoder` and `dino_loss` are assigned nowhere in the class, so the
`self.dino_loss(...)` call inside `DINO._get_loss` also resolves to an
`AttributeError` — while the intended `student_backbone` and `loss`
attributes do exist. -/
theorem dino_encoder_and_dino_loss_undefined :
    runAttrOps dinoInitAttrOps [] = .error "AttributeError: encoder" ∧
    "encoder" ∉ dinoAssignedAttrs ∧
    "dino_loss" ∉ dinoAssignedAttrs ∧
    dinoGetLossAttrLookup = .error "AttributeError: dino_loss" ∧
    "student_backbone" ∈ dinoAssignedAttrs ∧
    "loss" ∈ dinoAssignedAttrs := by
  refine ⟨rfl, by decide, by decide, rfl, by decide, by decide⟩

/-- The output width announced by a head layer, if it is a linear layer. -/
def headLayerOut : HeadLayer → Option Nat
  | .linear _ outFeatures _ => some outFeatures
  | .gelu => none

/-- C4 (code bug exhibit): for `dino_proj_layers = 3`,
`dino_proj_channels = 2048`, `dino_out_channels = 256`, the head built by
`DINO.__init__` is `[Linear(0, 2048), GELU, Linear(2048, 2048), GELU,
Linear(2048, 2048)]`: the first layer takes the stuck-at-zero
`head_in_features` rather than the backbone feature width, and no layer
outputs `dino_out_channels = 256`, because the "Last Layer" branch compares
`i` with `proj_channels - 1` instead of `proj_layers - 1`. -/
theorem dino_proj_head_architecture_bug :
    dinoProjHead 2048 256 3 =
      [ HeadLayer.linear 0 2048 false, HeadLayer.gelu
      , HeadLayer.linear 2048 2048 false, HeadLayer.gelu
      , HeadLayer.linear 2048 2048 false ] ∧
    ((dinoProjHead 2048 256 3).all
      (fun l => headLayerOut l != some 256)) = true ∧
    (dinoProjHead 2048 256 3).head? =
      some (HeadLayer.linear 0 2048 false) := by
  refine ⟨?_, ?_, ?_⟩ <;> decide
